import Mathlib

/-!
Shallow embedding of `label_studio/frontend/src/hooks/useQuery.ts` (the
current variant of the module, i.e. the first of the two near-duplicate
variants contained in the file).

The module is an asynchronous query lifecycle manager built from:
  * a status/action enumeration and a reducer (`queryActions`, `queryReducer`),
  * an options-merging algorithm (`updateOptions`),
  * a two-phase request coordinator (`request` with its inner `call`).

JavaScript records with optional keys are embedded as structures with
`Option` fields; `Record<string, any>` query maps are embedded as functions
`String → Option JsVal`; promise resolution/rejection is `Except`; the
single-threaded cooperative scheduling of `async`/`await` is embedded by
splitting each `call` into the synchronous segment before the `await`
(`callStart`) and the completion handler after it (`callComplete`), which
can then be interleaved explicitly.
-/

namespace UseQuery

/-- `QueryStatus` string enum of the source. -/
inductive QueryStatus
  | IDLE
  | LOADING
  | LOADED
  | HYDRATING
  | HYDRATED
  | ERROR
deriving DecidableEq

/-- The string value of each `QueryStatus` member (it is a TS string enum). -/
def statusKey : QueryStatus → String
  | .IDLE => "IDLE"
  | .LOADING => "LOADING"
  | .LOADED => "LOADED"
  | .HYDRATING => "HYDRATING"
  | .HYDRATED => "HYDRATED"
  | .ERROR => "ERROR"

/-- The `ACTIONS` string enum of the source. -/
inductive ACTIONS
  | LOADING
  | LOADED
  | HYDRATING
  | HYDRATED
  | ERROR
  | RESET
deriving DecidableEq

/-- The string value of each `ACTIONS` member. -/
def actionKey : ACTIONS → String
  | .LOADING => "LOADING"
  | .LOADED => "LOADED"
  | .HYDRATING => "HYDRATING"
  | .HYDRATED => "HYDRATED"
  | .ERROR => "ERROR"
  | .RESET => "RESET"

/-- A JS error object as used by the module: only its `message` is read. -/
structure JsErr where
  message : String
deriving DecidableEq

/-- A transport result payload: some content plus the optional `error`
field that `request` inspects (`if (data.error) throw (data.error)`). -/
structure Payload where
  value : Nat
  error : Option JsErr
deriving DecidableEq

/-- Untyped JS values that can land in `state.data` / `state.error`:
either a payload object or an error-message string. -/
inductive JsVal
  | data (p : Payload)
  | str (s : String)
deriving DecidableEq

/-- `QueryState`: `{ status, data, error }`; `none` embeds JS `null`/`undefined`. -/
structure QueryState where
  status : QueryStatus
  data : Option JsVal
  error : Option JsVal
deriving DecidableEq

/-- `initialState = { status: IDLE, data: null, error: null }`. -/
def initialState : QueryState :=
  { status := .IDLE, data := none, error := none }

/-- `QueryAction = { type: ACTIONS, payload?: any }`. -/
structure QueryAction where
  type : ACTIONS
  payload : Option JsVal
deriving DecidableEq

/-- The `queryActions` table: one reducer per action type, each spreading the
previous state and overriding the listed fields. -/
def queryActions : ACTIONS → QueryState → QueryAction → QueryState
  | .LOADING, s, _ => { s with status := .LOADING }
  | .HYDRATING, s, _ => { s with status := .HYDRATING }
  | .LOADED, s, a => { s with status := .LOADED, data := a.payload }
  | .HYDRATED, s, a => { s with status := .HYDRATED, data := a.payload }
  | .ERROR, s, a => { s with status := .ERROR, error := a.payload }
  | .RESET, _, _ => initialState

/-- The keys of the `ACTIONS` enum object (a TS string enum object has its
member names as keys). -/
def ACTIONSKeys : List String :=
  ["LOADING", "LOADED", "HYDRATING", "HYDRATED", "ERROR", "RESET"]

/-- `queryReducer`: applies the matching entry of `queryActions` when
`action.type in ACTIONS` (key membership in the enum object), else returns
the state unchanged. -/
def queryReducer (s : QueryState) (a : QueryAction) : QueryState :=
  if ACTIONSKeys.contains (actionKey a.type) then queryActions a.type s a else s

/-- A JS `Record<string, any>` query map. -/
abbrev QMap := String → Option JsVal

/-- The empty object `{}` as a query map. -/
def QMap.emptyMap : QMap := fun _ => none

/-- Reading key `k` through a possibly-`undefined` object (spreading
`undefined` spreads nothing). -/
def qget (o : Option QMap) (k : String) : Option JsVal :=
  match o with
  | some m => m k
  | none => none

/-- JS "first operand wins if its key is present": the value semantics of
`{ ...stored, ...incoming }` at one key, with `incoming` first here. -/
def jsOr {α : Type} (incoming stored : Option α) : Option α :=
  match incoming with
  | some v => some v
  | none => stored

/-- `{ ...stored, ...incoming }` on (possibly-`undefined`) query maps:
incoming keys override stored ones. -/
def spreadQ (stored incoming : Option QMap) : QMap :=
  fun k => jsOr (qget incoming k) (qget stored k)

/-- `hydrate` sub-options: `Omit<QueryOptions, 'hydrate' | 'skipInitialRequest'>`,
i.e. just an optional `query` map. -/
structure HydrateOptions where
  query : Option QMap

/-- `QueryOptions`: optional `query`, optional `skipInitialRequest` flag,
optional `hydrate` sub-record. -/
structure QueryOptions where
  query : Option QMap
  skipInitialRequest : Option Bool
  hydrate : Option HydrateOptions

/-- The empty options object `{}` (also the default of `updateOptions`). -/
def QueryOptions.emptyOpts : QueryOptions :=
  { query := none, skipInitialRequest := none, hydrate := none }

/-- `h?.query` for an optional hydrate record. -/
def hydQuery (h : Option HydrateOptions) : Option QMap :=
  h.bind HydrateOptions.query

/-- The `hydrate:` field of the merge in `updateOptions`:
`(incoming.hydrate || stored.hydrate) ? { ...stored.hydrate, ...incoming.hydrate,
query: (incoming.hydrate?.query || stored.hydrate?.query) ? { ...stored.hydrate?.query,
...incoming.hydrate?.query } : undefined } : undefined`
(an object, even empty, is truthy; `undefined` is falsy). -/
def mergeHyd (stored incoming : Option HydrateOptions) : Option HydrateOptions :=
  if incoming.isSome || stored.isSome then
    some { query :=
      if (hydQuery incoming).isSome || (hydQuery stored).isSome then
        some (spreadQ (hydQuery stored) (hydQuery incoming))
      else none }
  else none

/-- The body of `updateOptions`: `optionsRef.current = { ...stored, ...incoming,
query: { ...stored.query, ...incoming.query }, hydrate: ... }`.  The outer
spread resolves `skipInitialRequest`; `query` and `hydrate` are overridden by
the explicit fields. -/
def updateOptionsMerge (stored incoming : QueryOptions) : QueryOptions :=
  { query := some (spreadQ stored.query incoming.query),
    skipInitialRequest := jsOr incoming.skipInitialRequest stored.skipInitialRequest,
    hydrate := mergeHyd stored.hydrate incoming.hydrate }

/-- What the transport function `req` receives for one call:
`{ ...queryOptions, signal: abortRef.current.signal, hydrate: withHydrate }`.
The signal is identified by the generation number of the `AbortController`
that owns it. -/
structure TransportCall where
  query : QMap
  hydrate : Bool
  token : Nat

/-- One resolution of the transport promise: the option records it passed to
`updateOptions` while running (in order), and the settled promise — `ok` a
payload or a rejection carrying an error object. -/
structure TransportOutcome where
  updates : List QueryOptions
  result : Except JsErr Payload

/-- A transport function (the `req` argument of `useQuery`), as an oracle
from the call it receives to how its promise settles. -/
abbrev Transport := TransportCall → TransportOutcome

/-- The mutable cells of one `useQuery` manager: reducer state, the
`optionsRef` cell, the generation of `abortRef.current` (0 = none yet),
the `hasFetched` ref and the `mounted` ref. -/
structure Mgr where
  state : QueryState
  optionsRef : QueryOptions
  gen : Nat
  hasFetched : Bool
  mounted : Bool

/-- Manager right after construction with initial options. -/
def mgrInit (opts : QueryOptions) : Mgr :=
  { state := initialState, optionsRef := opts, gen := 0,
    hasFetched := false, mounted := true }

/-- Observable steps of a run: a dispatched reducer action, or a transport
invocation. -/
inductive Event
  | dispatch (a : QueryAction)
  | fetch (c : TransportCall)

/-- Result of the synchronous prefix of `call`: the updated manager, the
transport call that was started (if any), and the events so far. -/
structure StartResult where
  mgr : Mgr
  pending : Option TransportCall
  events : List Event

/-- Result of a completed segment: updated manager plus emitted events. -/
structure StepResult where
  mgr : Mgr
  events : List Event

/-- The synchronous prefix of `call(withHydrate)` up to the `await`:
`updateOptions(options); const { query, hydrate } = optionsRef.current;
if (!mounted.current || withHydrate && !hydrate?.query) return;
dispatch(HYDRATING|LOADING); abortRef.current = new AbortController();
const queryOptions = withHydrate ? hydrate?.query : query;` and the
invocation of `reqRef.current({ ...queryOptions, signal, hydrate })`. -/
def callStart (m : Mgr) (incoming : Option QueryOptions) (withHydrate : Bool) :
    StartResult :=
  let m1 : Mgr :=
    { m with optionsRef :=
        updateOptionsMerge m.optionsRef (incoming.getD QueryOptions.emptyOpts) }
  let query := m1.optionsRef.query
  let hydrate := m1.optionsRef.hydrate
  if !m1.mounted || (withHydrate && !(hydQuery hydrate).isSome) then
    { mgr := m1, pending := none, events := [] }
  else
    let act : QueryAction :=
      { type := if withHydrate then .HYDRATING else .LOADING, payload := none }
    let m2 : Mgr := { m1 with state := queryReducer m1.state act, gen := m1.gen + 1 }
    let queryOptions := if withHydrate then hydQuery hydrate else query
    let c : TransportCall :=
      { query := queryOptions.getD QMap.emptyMap, hydrate := withHydrate, token := m2.gen }
    { mgr := m2, pending := some c, events := [.dispatch act, .fetch c] }

/-- The completion handler of `call(withHydrate)`: the code after the `await`
together with the `catch` block.  `if (data.error) throw (data.error)` comes
before the mounted check; the `catch` re-checks `mounted` and dispatches
`ERROR` with `err.message`.  Note that it consults only `mounted.current`:
it never compares the call's token against the current `abortRef`. -/
def callComplete (m : Mgr) (withHydrate : Bool) (res : Except JsErr Payload) :
    StepResult :=
  match res with
  | .ok p =>
    match p.error with
    | some e =>
      if !m.mounted then { mgr := m, events := [] }
      else
        let act : QueryAction := { type := .ERROR, payload := some (.str e.message) }
        { mgr := { m with state := queryReducer m.state act }, events := [.dispatch act] }
    | none =>
      if !m.mounted then { mgr := m, events := [] }
      else
        let act : QueryAction :=
          { type := if withHydrate then .HYDRATED else .LOADED,
            payload := some (.data p) }
        { mgr := { m with hasFetched := true, state := queryReducer m.state act },
          events := [.dispatch act] }
  | .error e =>
    if !m.mounted then { mgr := m, events := [] }
    else
      let act : QueryAction := { type := .ERROR, payload := some (.str e.message) }
      { mgr := { m with state := queryReducer m.state act }, events := [.dispatch act] }

/-- A full uninterleaved `call(withHydrate)`: start, let the transport run
(applying any `updateOptions` calls it makes), then complete. -/
def callFn (m : Mgr) (incoming : Option QueryOptions) (tr : Transport)
    (withHydrate : Bool) : StepResult :=
  let s := callStart m incoming withHydrate
  match s.pending with
  | none => { mgr := s.mgr, events := s.events }
  | some c =>
    let out := tr c
    let m2 : Mgr :=
      { s.mgr with optionsRef := out.updates.foldl updateOptionsMerge s.mgr.optionsRef }
    let d := callComplete m2 withHydrate out.result
    { mgr := d.mgr, events := s.events ++ d.events }

/-- The guarded body of `request`: `await call(); if (optionsRef.current.hydrate)
await call(!!optionsRef.current.hydrate);`. -/
def requestCycle (m : Mgr) (incoming : Option QueryOptions) (tr : Transport) :
    StepResult :=
  let r1 := callFn m incoming tr false
  if r1.mgr.optionsRef.hydrate.isSome then
    let r2 := callFn r1.mgr incoming tr true
    { mgr := r2.mgr, events := r1.events ++ r2.events }
  else r1

/-- The array literal of the guard:
`[QueryStatus.IDLE, QueryStatus.LOADED, QueryStatus.HYDRATED]`. -/
def guardStatuses : List QueryStatus := [.IDLE, .LOADED, .HYDRATED]

/-- The property keys that the JS `in` operator finds on an array of length
`len`: the index keys `"0" … "len-1"` plus `"length"`.  (The inherited
`Array.prototype` method names are omitted: no `QueryStatus` string collides
with any of them.) -/
def jsArrayKeys (len : Nat) : List String :=
  (List.range len).map (fun i => toString i) ++ ["length"]

/-- The guard `state.status in [QueryStatus.IDLE, QueryStatus.LOADED,
QueryStatus.HYDRATED]`: JS `in` tests property-key membership of the
left operand (converted to a string) in the right operand object. -/
def requestGuard (s : QueryStatus) : Bool :=
  (jsArrayKeys guardStatuses.length).contains (statusKey s)

/-- `request(options)`: runs the two-phase cycle only when the guard holds,
else does nothing. -/
def request (m : Mgr) (incoming : Option QueryOptions) (tr : Transport) :
    StepResult :=
  if requestGuard m.state.status then requestCycle m incoming tr
  else { mgr := m, events := [] }

/-- Classification of events for stating ordering properties without
comparing query maps. -/
inductive Tag
  | loading
  | loaded
  | hydrating
  | hydrated
  | errored
  | resetTag
  | fetchPrimary
  | fetchHydrate
deriving DecidableEq

/-- The tag of an event. -/
def tagOf : Event → Tag
  | .dispatch a =>
    match a.type with
    | .LOADING => .loading
    | .LOADED => .loaded
    | .HYDRATING => .hydrating
    | .HYDRATED => .hydrated
    | .ERROR => .errored
    | .RESET => .resetTag
  | .fetch c => if c.hydrate then .fetchHydrate else .fetchPrimary

/-- Tags of a run, in order. -/
def tags (ev : List Event) : List Tag := ev.map tagOf

/-- Number of transport invocations in a run. -/
def fetchCount (ev : List Event) : Nat :=
  (tags ev).countP (fun t => t = .fetchPrimary || t = .fetchHydrate)

/-- A transport whose promise always fulfills, described by the payload it
returns for each call and the `updateOptions` records it registers. -/
def cleanTransport (pay : TransportCall → Payload)
    (us : TransportCall → List QueryOptions) : Transport :=
  fun c => { updates := us c, result := .ok (pay c) }

/-- A transport whose promise always rejects with the given message. -/
def rejectTransport (msg : String) : Transport :=
  fun _ => { updates := [], result := .error { message := msg } }

/-- A one-key query map. -/
def qmapSingle (k : String) (v : JsVal) : QMap :=
  fun s => if s = k then some v else none

/-- Interleaving of two overlapping primary calls under the cooperative
scheduler: both calls start (each suspending at its `await`), then the
second call's promise resolves with payload `p2`, then the first —
now stale — call's promise resolves with payload `p1`.  The result holds
the final manager and the events of the stale completion. -/
def staleScenario (p1 p2 : Nat) : StepResult :=
  let s1 := callStart (mgrInit QueryOptions.emptyOpts) none false
  let s2 := callStart s1.mgr none false
  let d2 := callComplete s2.mgr false (.ok { value := p2, error := none })
  callComplete d2.mgr false (.ok { value := p1, error := none })

/-- Options whose `hydrate.query` is a non-empty map. -/
def hydQueryOpts : QueryOptions :=
  { query := none, skipInitialRequest := none,
    hydrate := some { query := some (qmapSingle "ids" (.str "1")) } }

/-- A transport that rejects the primary call and fulfills the hydration
call with payload value 7. -/
def trFailPrimary : Transport :=
  fun c =>
    if c.hydrate then { updates := [], result := .ok { value := 7, error := none } }
    else { updates := [], result := .error { message := "boom" } }

/-- A request cycle whose primary fetch errors while a hydrate query is
stored. -/
def errorThenHydrateRun : StepResult :=
  requestCycle (mgrInit hydQueryOpts) none trFailPrimary

/-- Options with a present-but-empty `hydrate` record (no `hydrate.query`). -/
def emptyHydOpts : QueryOptions :=
  { query := none, skipInitialRequest := none, hydrate := some { query := none } }

/-- A transport that always fulfills with payload value 5. -/
def trAlwaysOk : Transport :=
  fun _ => { updates := [], result := .ok { value := 5, error := none } }

/-- A request cycle with a present-but-empty `hydrate` record and a
succeeding primary fetch. -/
def emptyHydrateRun : StepResult :=
  requestCycle (mgrInit emptyHydOpts) none trAlwaysOk

/-- The transport call issued by a primary `call(false)` from manager `m`
with incoming options `inc`. -/
def primaryCallOf (m : Mgr) (inc : Option QueryOptions) : TransportCall :=
  { query := (updateOptionsMerge m.optionsRef
      (inc.getD QueryOptions.emptyOpts)).query.getD QMap.emptyMap,
    hydrate := false, token := m.gen + 1 }

/-- The transport call issued by a hydration `call(true)` from manager `m`
with incoming options `inc`. -/
def hydrateCallOf (m : Mgr) (inc : Option QueryOptions) : TransportCall :=
  { query := (hydQuery (updateOptionsMerge m.optionsRef
      (inc.getD QueryOptions.emptyOpts)).hydrate).getD QMap.emptyMap,
    hydrate := true, token := m.gen + 1 }

/-- A transport that rejects the primary call with `msg` and fulfills the
hydration call with `payH`, making no option updates. -/
def mixedTransport (msg : String) (payH : Payload) : Transport :=
  fun c =>
    if c.hydrate then { updates := [], result := .ok payH }
    else { updates := [], result := .error { message := msg } }

/-- Re-spreading the same incoming value changes nothing at one key. -/
theorem jsOr_self {α : Type} (b a : Option α) : jsOr b (jsOr b a) = jsOr b a := by
  cases b <;> rfl

/-- Spreading the same incoming query map twice equals spreading it once. -/
theorem spread_idem (a b : Option QMap) :
    spreadQ (some (spreadQ a b)) b = spreadQ a b := by
  funext k
  show jsOr (qget b k) (spreadQ a b k) = spreadQ a b k
  exact jsOr_self (qget b k) (qget a k)

/-- Merging the same incoming hydrate record twice equals merging it once. -/
theorem mergeHyd_idem (a b : Option HydrateOptions) :
    mergeHyd (mergeHyd a b) b = mergeHyd a b := by
  cases b with
  | none =>
    cases a with
    | none => rfl
    | some ha =>
      cases hq : ha.query with
      | none => simp [mergeHyd, hydQuery, hq]
      | some q => simp [mergeHyd, hydQuery, hq, spread_idem]
  | some hb =>
    cases hbq : hb.query with
    | some q => simp [mergeHyd, hydQuery, hbq, spread_idem]
    | none =>
      cases haq : a.bind HydrateOptions.query with
      | none => simp [mergeHyd, hydQuery, hbq, haq]
      | some aq => simp [mergeHyd, hydQuery, hbq, haq, spread_idem]

/-- Merging the same incoming options twice equals merging them once. -/
theorem merge_idem (a b : QueryOptions) :
    updateOptionsMerge (updateOptionsMerge a b) b = updateOptionsMerge a b := by
  unfold updateOptionsMerge
  simp only [QueryOptions.mk.injEq]
  refine ⟨by simp [spread_idem], ?_, by simp [mergeHyd_idem]⟩
  cases b.skipInitialRequest <;> rfl

/-- A present `hydrate?.query` forces a present `hydrate`. -/
theorem hydq_isSome_of (h : Option HydrateOptions)
    (hq : (hydQuery h).isSome = true) : h.isSome = true := by
  cases h <;> simp_all [hydQuery]

/-- Merging preserves presence of the stored `hydrate.query`. -/
theorem merge_hydq_mono (a b : QueryOptions)
    (ha : (hydQuery a.hydrate).isSome = true) :
    (hydQuery (updateOptionsMerge a b).hydrate).isSome = true := by
  have h1 : a.hydrate.isSome = true := hydq_isSome_of _ ha
  have ha2 : (a.hydrate.bind HydrateOptions.query).isSome = true := ha
  simp [updateOptionsMerge, mergeHyd, hydQuery, h1, ha2]

/-- Any sequence of merges preserves presence of the stored `hydrate.query`. -/
theorem foldl_hydq_mono (l : List QueryOptions) (a : QueryOptions)
    (ha : (hydQuery a.hydrate).isSome = true) :
    (hydQuery (l.foldl updateOptionsMerge a).hydrate).isSome = true := by
  induction l generalizing a with
  | nil => exact ha
  | cons x xs ih => exact ih _ (merge_hydq_mono a x ha)

/-- `action.type in ACTIONS` always holds for a well-typed action, so the
reducer always applies the matching `queryActions` entry. -/
theorem reducer_run (s : QueryState) (a : QueryAction) :
    queryReducer s a = queryActions a.type s a := by
  obtain ⟨t, p⟩ := a
  cases t <;> rfl

/-- C5 (confirmed): merge idempotence — for all option records `a` and `b`,
`merge(merge(a,b),b) == merge(a,b)`: re-applying the same incoming options
(scalar fields incoming-wins, shallow query merge, independent shallow
hydrate-query merge) is a no-op. -/
theorem merge_options_idempotent (a b : QueryOptions) :
    updateOptionsMerge (updateOptionsMerge a b) b = updateOptionsMerge a b :=
  merge_idem a b

/-- C10 (confirmed): the merge always yields a present (possibly empty)
`query` map, even when both inputs lack one; hence merging the empty
incoming record into options without a `query` is not an identity. -/
theorem merge_query_always_present :
    (∀ a b : QueryOptions, ((updateOptionsMerge a b).query).isSome = true)
    ∧ updateOptionsMerge QueryOptions.emptyOpts QueryOptions.emptyOpts
        ≠ QueryOptions.emptyOpts := by
  refine ⟨fun a b => rfl, fun h => ?_⟩
  have h2 := congrArg QueryOptions.query h
  simp [updateOptionsMerge, QueryOptions.emptyOpts] at h2

/-- C8 (confirmed): from status IDLE, LOADED, HYDRATED or ERROR, the
START/LOADING event yields status LOADING with `data` and `error`
unchanged. -/
theorem start_transition (s : QueryState) (p : Option JsVal)
    (_hstat : s.status = .IDLE ∨ s.status = .LOADED ∨ s.status = .HYDRATED
      ∨ s.status = .ERROR) :
    queryReducer s { type := .LOADING, payload := p }
      = { s with status := .LOADING } :=
  rfl

/-- Witness for C8 at the initial state. -/
theorem start_transition_witness :
    (initialState.status = .IDLE ∨ initialState.status = .LOADED
      ∨ initialState.status = .HYDRATED ∨ initialState.status = .ERROR)
    ∧ queryReducer initialState { type := .LOADING, payload := none }
        = { initialState with status := .LOADING } :=
  ⟨Or.inl rfl, start_transition initialState none (Or.inl rfl)⟩

/-- C9 (confirmed): the ERROR event preserves `data` for every state and
every payload; only RESET puts `data` back to null. -/
theorem error_preserves_data (s : QueryState) (p : Option JsVal) :
    (queryReducer s { type := .ERROR, payload := p }).data = s.data
    ∧ (queryReducer s { type := .RESET, payload := p }).data = none :=
  ⟨rfl, rfl⟩

/-- C2 (code bug): the guard `state.status in [IDLE, LOADED, HYDRATED]`
uses the JS `in` operator on an array, which tests property keys
("0", "1", "2", "length"), never the element values; it is false for every
status, so `request` performs no transport call and no transition from any
status — including IDLE — contradicting the claimed dispatch behaviour. -/
theorem request_guard_never_fires :
    (∀ s : QueryStatus, requestGuard s = false)
    ∧ ∀ (m : Mgr) (inc : Option QueryOptions) (tr : Transport),
        request m inc tr = { mgr := m, events := [] } := by
  have hg : ∀ s : QueryStatus, requestGuard s = false := by
    intro s; cases s <;> rfl
  refine ⟨hg, fun m inc tr => ?_⟩
  simp [request, hg m.state.status]

/-- A mounted primary `call(false)` always passes its gate: it dispatches
LOADING, allocates a fresh controller and issues the primary call. -/
theorem callStart_false_eq (m : Mgr) (inc : Option QueryOptions)
    (hm : m.mounted = true) :
    callStart m inc false =
      { mgr := { m with
          optionsRef := updateOptionsMerge m.optionsRef (inc.getD QueryOptions.emptyOpts),
          state := queryReducer m.state { type := .LOADING, payload := none },
          gen := m.gen + 1 },
        pending := some (primaryCallOf m inc),
        events := [.dispatch { type := .LOADING, payload := none },
                   .fetch (primaryCallOf m inc)] } := by
  simp [callStart, primaryCallOf, hm]

/-- A mounted hydration `call(true)` whose merged options carry a present
`hydrate.query` passes its gate: it dispatches HYDRATING and issues the
hydration call. -/
theorem callStart_true_eq (m : Mgr) (inc : Option QueryOptions)
    (hm : m.mounted = true)
    (hq : (hydQuery (updateOptionsMerge m.optionsRef
        (inc.getD QueryOptions.emptyOpts)).hydrate).isSome = true) :
    callStart m inc true =
      { mgr := { m with
          optionsRef := updateOptionsMerge m.optionsRef (inc.getD QueryOptions.emptyOpts),
          state := queryReducer m.state { type := .HYDRATING, payload := none },
          gen := m.gen + 1 },
        pending := some (hydrateCallOf m inc),
        events := [.dispatch { type := .HYDRATING, payload := none },
                   .fetch (hydrateCallOf m inc)] } := by
  simp [callStart, hydrateCallOf, hm, hq]

/-- A hydration `call(true)` without a present merged `hydrate.query`
returns early: it only merges the options, with no dispatch and no fetch. -/
theorem callStart_true_skip (m : Mgr) (inc : Option QueryOptions)
    (hq : (hydQuery (updateOptionsMerge m.optionsRef
        (inc.getD QueryOptions.emptyOpts)).hydrate).isSome = false) :
    callStart m inc true =
      { mgr := { m with
          optionsRef := updateOptionsMerge m.optionsRef (inc.getD QueryOptions.emptyOpts) },
        pending := none, events := [] } := by
  simp [callStart, hq]

/-- A mounted completion of a fulfilled promise whose payload has no error
field sets `hasFetched` and dispatches HYDRATED/LOADED with the payload. -/
theorem callComplete_ok_clean (m : Mgr) (wh : Bool) (p : Payload)
    (hm : m.mounted = true) (hp : p.error = none) :
    callComplete m wh (.ok p) =
      { mgr := { m with
          hasFetched := true,
          state := queryReducer m.state
            ({ type := if wh then .HYDRATED else .LOADED, payload := some (.data p) }) },
        events := [.dispatch
          { type := if wh then .HYDRATED else .LOADED, payload := some (.data p) }] } := by
  obtain ⟨v, e⟩ := p
  replace hp : e = none := hp
  subst hp
  simp [callComplete, hm]

/-- A mounted completion of a rejected promise dispatches ERROR with the
error's message. -/
theorem callComplete_err (m : Mgr) (wh : Bool) (e : JsErr)
    (hm : m.mounted = true) :
    callComplete m wh (.error e) =
      { mgr := { m with
          state := queryReducer m.state
            ({ type := .ERROR, payload := some (.str e.message) }) },
        events := [.dispatch { type := .ERROR, payload := some (.str e.message) }] } := by
  simp [callComplete, hm]

/-- A full primary `call(false)` against a clean transport: LOADING is
dispatched, the primary call issued, the transport's option updates folded
in, and LOADED dispatched with the payload. -/
theorem callFn_clean_false_eq (m : Mgr) (inc : Option QueryOptions)
    (pay : TransportCall → Payload) (us : TransportCall → List QueryOptions)
    (hm : m.mounted = true) (herr : ∀ c, (pay c).error = none) :
    callFn m inc (cleanTransport pay us) false =
      { mgr := { m with
          state := queryReducer
            (queryReducer m.state { type := .LOADING, payload := none })
            ({ type := .LOADED,
               payload := some (.data (pay (primaryCallOf m inc))) }),
          optionsRef := (us (primaryCallOf m inc)).foldl updateOptionsMerge
            (updateOptionsMerge m.optionsRef (inc.getD QueryOptions.emptyOpts)),
          gen := m.gen + 1, hasFetched := true },
        events := [.dispatch { type := .LOADING, payload := none },
                   .fetch (primaryCallOf m inc),
                   .dispatch { type := .LOADED, payload := some (.data (pay (primaryCallOf m inc))) }] } := by
  unfold callFn
  rw [callStart_false_eq _ _ hm]
  simp [cleanTransport, callComplete_ok_clean, hm, herr]

/-- A full hydration `call(true)` against a clean transport, when the merged
options carry a present `hydrate.query`: HYDRATING is dispatched, the
hydration call issued, and HYDRATED dispatched with the payload. -/
theorem callFn_clean_true_eq (m : Mgr) (inc : Option QueryOptions)
    (pay : TransportCall → Payload) (us : TransportCall → List QueryOptions)
    (hm : m.mounted = true)
    (hq : (hydQuery (updateOptionsMerge m.optionsRef
        (inc.getD QueryOptions.emptyOpts)).hydrate).isSome = true)
    (herr : ∀ c, (pay c).error = none) :
    callFn m inc (cleanTransport pay us) true =
      { mgr := { m with
          state := queryReducer
            (queryReducer m.state { type := .HYDRATING, payload := none })
            ({ type := .HYDRATED,
               payload := some (.data (pay (hydrateCallOf m inc))) }),
          optionsRef := (us (hydrateCallOf m inc)).foldl updateOptionsMerge
            (updateOptionsMerge m.optionsRef (inc.getD QueryOptions.emptyOpts)),
          gen := m.gen + 1, hasFetched := true },
        events := [.dispatch { type := .HYDRATING, payload := none },
                   .fetch (hydrateCallOf m inc),
                   .dispatch { type := .HYDRATED, payload := some (.data (pay (hydrateCallOf m inc))) }] } := by
  unfold callFn
  rw [callStart_true_eq _ _ hm hq]
  simp [cleanTransport, callComplete_ok_clean, hm, herr]

/-- A hydration `call(true)` without a present merged `hydrate.query` makes
no transport call at all, only the option merge. -/
theorem callFn_true_skip_eq (m : Mgr) (inc : Option QueryOptions) (tr : Transport)
    (hq : (hydQuery (updateOptionsMerge m.optionsRef
        (inc.getD QueryOptions.emptyOpts)).hydrate).isSome = false) :
    callFn m inc tr true =
      { mgr := { m with
          optionsRef := updateOptionsMerge m.optionsRef (inc.getD QueryOptions.emptyOpts) },
        events := [] } := by
  unfold callFn
  rw [callStart_true_skip _ _ hq]

/-- C1 counterexample: with two overlapping primary calls where the first
resolves after the second, the stale completion still dispatches (its tags
are `[loaded]`), and the final stored data is the FIRST call's payload, not
the second's — refuting the claimed staleness discard. -/
theorem staleness_discard_refuted :
    (staleScenario 1 2).mgr.state.data = some (.data { value := 1, error := none })
    ∧ tags (staleScenario 1 2).events = [Tag.loaded]
    ∧ ¬ (staleScenario 1 2).mgr.state.data
        = some (.data { value := 2, error := none }) :=
  ⟨rfl, rfl, by decide⟩

/-- C1 amended (corrected): completion handlers check only the mounted
flag, never the token generation, so a stale resolution does apply its
transition; after both calls settle, the stored data is the payload of
whichever call resolved last. -/
theorem staleness_last_resolution_wins (p1 p2 : Nat) :
    (staleScenario p1 p2).mgr.state.data
      = some (.data { value := p1, error := none })
    ∧ (staleScenario p1 p2).mgr.state.status = .LOADED
    ∧ tags (staleScenario p1 p2).events = [Tag.loaded] :=
  ⟨rfl, rfl, rfl⟩

/-- C3 counterexample: with a stored non-empty `hydrate.query` and a
primary fetch that rejects, the cycle still performs the hydration call
and the HYDRATING transition (and even ends HYDRATED) — refuting the
claimed phase-2 gating on phase-1 success. -/
theorem phase2_after_error_refuted :
    tags errorThenHydrateRun.events
      = [Tag.loading, Tag.fetchPrimary, Tag.errored,
         Tag.hydrating, Tag.fetchHydrate, Tag.hydrated]
    ∧ errorThenHydrateRun.mgr.state.status = QueryStatus.HYDRATED
    ∧ ¬ (tags errorThenHydrateRun.events).count Tag.hydrating = 0 :=
  ⟨rfl, rfl, by decide⟩

/-- C7 counterexample: with a present-but-empty `hydrate` record (no
`hydrate.query`) and a succeeding primary fetch, exactly ONE transport call
is made — the second call returns early — refuting the claim that a
present-but-empty `hydrate` still means two-phase. -/
theorem empty_hydrate_two_phase_refuted :
    fetchCount emptyHydrateRun.events = 1
    ∧ ¬ fetchCount emptyHydrateRun.events = 2
    ∧ tags emptyHydrateRun.events = [Tag.loading, Tag.fetchPrimary, Tag.loaded] :=
  ⟨rfl, by decide, rfl⟩

/-- C6 (confirmed): a rejected transport promise, or a fulfilled payload
carrying an `error` field, makes the live manager transition to ERROR with
the error's message stored in `error`; at request level the failure is
absorbed — the cycle returns normally with the ERROR state (nothing is
rethrown: the handlers are total and map failures into state). -/
theorem error_containment (m : Mgr) (wh : Bool) (msg : String) (v : Nat)
    (opts : QueryOptions) (hm : m.mounted = true) (hopt : opts.hydrate = none) :
    (callComplete m wh (.error { message := msg })).mgr.state.status = .ERROR
    ∧ (callComplete m wh (.error { message := msg })).mgr.state.error
        = some (.str msg)
    ∧ (callComplete m wh
        (.ok { value := v, error := some { message := msg } })).mgr.state.status
        = .ERROR
    ∧ (callComplete m wh
        (.ok { value := v, error := some { message := msg } })).mgr.state.error
        = some (.str msg)
    ∧ (requestCycle (mgrInit opts) none (rejectTransport msg)).mgr.state.status
        = .ERROR
    ∧ (requestCycle (mgrInit opts) none (rejectTransport msg)).mgr.state.error
        = some (.str msg) := by
  refine ⟨?_, ?_, ?_, ?_, ?_, ?_⟩ <;>
    simp [callComplete, requestCycle, callFn, callStart, mgrInit, rejectTransport,
      updateOptionsMerge, mergeHyd, hopt, hm, reducer_run, queryActions,
      QueryOptions.emptyOpts, hydQuery]

/-- Witness for C6 at a concrete manager, message and options. -/
theorem error_containment_witness :
    ((mgrInit QueryOptions.emptyOpts).mounted = true
      ∧ QueryOptions.emptyOpts.hydrate = none)
    ∧ ((callComplete (mgrInit QueryOptions.emptyOpts) false
          (.error { message := "boom" })).mgr.state.status = .ERROR
      ∧ (callComplete (mgrInit QueryOptions.emptyOpts) false
          (.error { message := "boom" })).mgr.state.error = some (.str "boom")
      ∧ (callComplete (mgrInit QueryOptions.emptyOpts) false
          (.ok { value := 0, error := some { message := "boom" } })).mgr.state.status
          = .ERROR
      ∧ (callComplete (mgrInit QueryOptions.emptyOpts) false
          (.ok { value := 0, error := some { message := "boom" } })).mgr.state.error
          = some (.str "boom")
      ∧ (requestCycle (mgrInit QueryOptions.emptyOpts) none
          (rejectTransport "boom")).mgr.state.status = .ERROR
      ∧ (requestCycle (mgrInit QueryOptions.emptyOpts) none
          (rejectTransport "boom")).mgr.state.error = some (.str "boom")) :=
  ⟨⟨rfl, rfl⟩,
   error_containment (mgrInit QueryOptions.emptyOpts) false "boom" 0
     QueryOptions.emptyOpts rfl rfl⟩

/-- C4 (confirmed): with stored options carrying a present `hydrate.query`
and a transport that fulfills every call with an error-free payload, the
cycle's trace is exactly LOADING, primary fetch, LOADED, HYDRATING,
hydration fetch, HYDRATED — in that order — and the final data is the
hydration call's payload (it fully replaces the phase-1 payload). -/
theorem hydration_cycle_order (opts : QueryOptions) (inc : Option QueryOptions)
    (pay : TransportCall → Payload) (us : TransportCall → List QueryOptions)
    (hq : (hydQuery opts.hydrate).isSome = true)
    (herr : ∀ c, (pay c).error = none) :
    tags (requestCycle (mgrInit opts) inc (cleanTransport pay us)).events
      = [Tag.loading, Tag.fetchPrimary, Tag.loaded,
         Tag.hydrating, Tag.fetchHydrate, Tag.hydrated]
    ∧ (requestCycle (mgrInit opts) inc (cleanTransport pay us)).mgr.state.status
        = QueryStatus.HYDRATED
    ∧ ∃ c : TransportCall, c.hydrate = true
        ∧ Event.fetch c ∈ (requestCycle (mgrInit opts) inc (cleanTransport pay us)).events
        ∧ (requestCycle (mgrInit opts) inc (cleanTransport pay us)).mgr.state.data
            = some (.data (pay c)) := by
  have hq1 : (hydQuery (updateOptionsMerge (mgrInit opts).optionsRef
      (inc.getD QueryOptions.emptyOpts)).hydrate).isSome = true :=
    merge_hydq_mono _ _ hq
  have hq2 : (hydQuery ((us (primaryCallOf (mgrInit opts) inc)).foldl updateOptionsMerge
      (updateOptionsMerge (mgrInit opts).optionsRef
        (inc.getD QueryOptions.emptyOpts))).hydrate).isSome = true :=
    foldl_hydq_mono _ _ hq1
  have hs : ((us (primaryCallOf (mgrInit opts) inc)).foldl updateOptionsMerge
      (updateOptionsMerge (mgrInit opts).optionsRef
        (inc.getD QueryOptions.emptyOpts))).hydrate.isSome = true :=
    hydq_isSome_of _ hq2
  have hq3 : (hydQuery (updateOptionsMerge ((us (primaryCallOf (mgrInit opts) inc)).foldl
      updateOptionsMerge (updateOptionsMerge (mgrInit opts).optionsRef
        (inc.getD QueryOptions.emptyOpts))) (inc.getD QueryOptions.emptyOpts)).hydrate).isSome
      = true :=
    merge_hydq_mono _ _ hq2
  simp only [requestCycle]
  rw [callFn_clean_false_eq _ _ _ _ rfl herr]
  simp only [hs]
  rw [callFn_clean_true_eq _ _ _ _ rfl hq3 herr]
  refine ⟨?_, ?_, ?_⟩
  · simp [tags, tagOf, primaryCallOf, hydrateCallOf, reducer_run, queryActions]
  · simp [reducer_run, queryActions]
  · refine ⟨_, ?_, ?_, rfl⟩
    · simp [hydrateCallOf]
    · simp [reducer_run, queryActions]

/-- Witness for C4 at concrete options, transport payload 9 and no
mid-flight option updates. -/
theorem hydration_cycle_order_witness :
    ((hydQuery hydQueryOpts.hydrate).isSome = true
      ∧ ∀ c : TransportCall,
          ((fun (_ : TransportCall) => ({ value := 9, error := none } : Payload)) c).error
            = none)
    ∧ (tags (requestCycle (mgrInit hydQueryOpts) none
          (cleanTransport (fun _ => { value := 9, error := none }) (fun _ => []))).events
        = [Tag.loading, Tag.fetchPrimary, Tag.loaded,
           Tag.hydrating, Tag.fetchHydrate, Tag.hydrated]
      ∧ (requestCycle (mgrInit hydQueryOpts) none
          (cleanTransport (fun _ => { value := 9, error := none }) (fun _ => []))).mgr.state.status
          = QueryStatus.HYDRATED
      ∧ ∃ c : TransportCall, c.hydrate = true
          ∧ Event.fetch c ∈ (requestCycle (mgrInit hydQueryOpts) none
              (cleanTransport (fun _ => { value := 9, error := none }) (fun _ => []))).events
          ∧ (requestCycle (mgrInit hydQueryOpts) none
              (cleanTransport (fun _ => { value := 9, error := none }) (fun _ => []))).mgr.state.data
              = some (.data { value := 9, error := none })) :=
  ⟨⟨rfl, fun _ => rfl⟩,
   hydration_cycle_order hydQueryOpts none (fun _ => { value := 9, error := none })
     (fun _ => []) rfl (fun _ => rfl)⟩

/-- A full primary `call(false)` whose transport rejects (with no option
updates): LOADING is dispatched, the call issued, then ERROR dispatched
with the error's message. -/
theorem callFn_false_reject_eq (m : Mgr) (inc : Option QueryOptions)
    (tr : Transport) (e : JsErr) (hm : m.mounted = true)
    (htr : tr (primaryCallOf m inc) = { updates := [], result := .error e }) :
    callFn m inc tr false =
      { mgr := { m with
          state := queryReducer
            (queryReducer m.state { type := .LOADING, payload := none })
            ({ type := .ERROR, payload := some (.str e.message) }),
          optionsRef := updateOptionsMerge m.optionsRef (inc.getD QueryOptions.emptyOpts),
          gen := m.gen + 1 },
        events := [.dispatch { type := .LOADING, payload := none },
                   .fetch (primaryCallOf m inc),
                   .dispatch { type := .ERROR, payload := some (.str e.message) }] } := by
  unfold callFn
  rw [callStart_false_eq _ _ hm]
  simp [htr, callComplete_err, hm]

/-- A full hydration `call(true)` whose transport fulfills cleanly with no
option updates, when the merged options carry a present `hydrate.query`. -/
theorem callFn_true_ok_eq (m : Mgr) (inc : Option QueryOptions)
    (tr : Transport) (p : Payload) (hm : m.mounted = true)
    (hq : (hydQuery (updateOptionsMerge m.optionsRef
        (inc.getD QueryOptions.emptyOpts)).hydrate).isSome = true)
    (htr : tr (hydrateCallOf m inc) = { updates := [], result := .ok p })
    (hp : p.error = none) :
    callFn m inc tr true =
      { mgr := { m with
          state := queryReducer
            (queryReducer m.state { type := .HYDRATING, payload := none })
            ({ type := .HYDRATED, payload := some (.data p) }),
          optionsRef := updateOptionsMerge m.optionsRef (inc.getD QueryOptions.emptyOpts),
          gen := m.gen + 1, hasFetched := true },
        events := [.dispatch { type := .HYDRATING, payload := none },
                   .fetch (hydrateCallOf m inc),
                   .dispatch { type := .HYDRATED, payload := some (.data p) }] } := by
  unfold callFn
  rw [callStart_true_eq _ _ hm hq]
  simp [htr, callComplete_ok_clean, hm, hp]

/-- C7 amended (corrected): the second fetch happens iff the merged stored
options carry a PRESENT `hydrate.query`; a present-but-empty `hydrate`
record (no `query`) makes `call(true)` return early with no fetch, so the
cycle makes two transport calls iff `hydrate.query` is present, else one. -/
theorem hydrate_fetch_iff_query (opts : QueryOptions) (inc : Option QueryOptions)
    (pay : TransportCall → Payload)
    (herr : ∀ c, (pay c).error = none) :
    fetchCount (requestCycle (mgrInit opts) inc
        (cleanTransport pay (fun _ => []))).events
      = if (hydQuery (updateOptionsMerge opts
            (inc.getD QueryOptions.emptyOpts)).hydrate).isSome
        then 2 else 1 := by
  simp only [requestCycle]
  rw [callFn_clean_false_eq _ _ _ _ rfl herr]
  by_cases hq : (hydQuery (updateOptionsMerge opts
      (inc.getD QueryOptions.emptyOpts)).hydrate).isSome = true
  · have hs : (updateOptionsMerge opts
        (inc.getD QueryOptions.emptyOpts)).hydrate.isSome = true :=
      hydq_isSome_of _ hq
    have hq2 : (hydQuery (updateOptionsMerge (updateOptionsMerge opts
        (inc.getD QueryOptions.emptyOpts))
        (inc.getD QueryOptions.emptyOpts)).hydrate).isSome = true := by
      rw [merge_idem]; exact hq
    rw [callFn_clean_true_eq _ _ _ _ rfl hq2 herr]
    simp only [mgrInit, List.foldl_nil]
    simp only [hs, hq]
    rfl
  · rw [Bool.not_eq_true] at hq
    cases hh : (updateOptionsMerge opts
        (inc.getD QueryOptions.emptyOpts)).hydrate.isSome with
    | false =>
      simp only [mgrInit, List.foldl_nil]
      simp only [hh, hq]
      rfl
    | true =>
      have hq2 : (hydQuery (updateOptionsMerge (updateOptionsMerge opts
          (inc.getD QueryOptions.emptyOpts))
          (inc.getD QueryOptions.emptyOpts)).hydrate).isSome = false := by
        rw [merge_idem]; exact hq
      rw [callFn_true_skip_eq _ _ _ hq2]
      simp only [mgrInit, List.foldl_nil]
      simp only [hh, hq]
      rfl

/-- Witness for C7's amended claim at a present-but-empty `hydrate`. -/
theorem hydrate_fetch_iff_query_witness :
    (∀ c : TransportCall,
        ((fun (_ : TransportCall) => ({ value := 3, error := none } : Payload)) c).error
          = none)
    ∧ fetchCount (requestCycle (mgrInit emptyHydOpts) none
          (cleanTransport (fun _ => { value := 3, error := none }) (fun _ => []))).events
        = if (hydQuery (updateOptionsMerge emptyHydOpts
              (Option.getD none QueryOptions.emptyOpts)).hydrate).isSome
          then 2 else 1 :=
  ⟨fun _ => rfl,
   hydrate_fetch_iff_query emptyHydOpts none
     (fun _ => { value := 3, error := none }) (fun _ => rfl)⟩

/-- C3 amended (corrected): phase-2 gating checks only that the merged
stored options carry a present `hydrate.query` — not that phase 1
succeeded: after a primary rejection (status ERROR) the HYDRATING
transition and the hydration transport call still occur, and a clean
hydration payload even ends the cycle HYDRATED with the primary error
message still stored. -/
theorem phase2_ignores_phase1_error (opts : QueryOptions) (inc : Option QueryOptions)
    (msg : String) (payH : Payload)
    (hq1 : (hydQuery (updateOptionsMerge opts
        (inc.getD QueryOptions.emptyOpts)).hydrate).isSome = true)
    (hH : payH.error = none) :
    tags (requestCycle (mgrInit opts) inc (mixedTransport msg payH)).events
      = [Tag.loading, Tag.fetchPrimary, Tag.errored,
         Tag.hydrating, Tag.fetchHydrate, Tag.hydrated]
    ∧ (requestCycle (mgrInit opts) inc (mixedTransport msg payH)).mgr.state.status
        = QueryStatus.HYDRATED
    ∧ (requestCycle (mgrInit opts) inc (mixedTransport msg payH)).mgr.state.error
        = some (.str msg) := by
  have hs : (updateOptionsMerge opts
      (inc.getD QueryOptions.emptyOpts)).hydrate.isSome = true :=
    hydq_isSome_of _ hq1
  have hq2 : (hydQuery (updateOptionsMerge (updateOptionsMerge opts
      (inc.getD QueryOptions.emptyOpts))
      (inc.getD QueryOptions.emptyOpts)).hydrate).isSome = true := by
    rw [merge_idem]; exact hq1
  simp only [requestCycle]
  rw [callFn_false_reject_eq _ _ _ { message := msg } rfl rfl]
  rw [callFn_true_ok_eq _ _ _ payH rfl hq2 rfl hH]
  simp only [mgrInit, List.foldl_nil]
  simp only [hs]
  exact ⟨rfl, rfl, rfl⟩

/-- Witness for C3's amended claim at concrete options and payloads. -/
theorem phase2_ignores_phase1_error_witness :
    ((hydQuery (updateOptionsMerge hydQueryOpts
        (Option.getD none QueryOptions.emptyOpts)).hydrate).isSome = true
      ∧ (({ value := 7, error := none } : Payload)).error = none)
    ∧ (tags (requestCycle (mgrInit hydQueryOpts) none
          (mixedTransport "boom" { value := 7, error := none })).events
        = [Tag.loading, Tag.fetchPrimary, Tag.errored,
           Tag.hydrating, Tag.fetchHydrate, Tag.hydrated]
      ∧ (requestCycle (mgrInit hydQueryOpts) none
          (mixedTransport "boom" { value := 7, error := none })).mgr.state.status
          = QueryStatus.HYDRATED
      ∧ (requestCycle (mgrInit hydQueryOpts) none
          (mixedTransport "boom" { value := 7, error := none })).mgr.state.error
          = some (.str "boom")) :=
  ⟨⟨rfl, rfl⟩,
   phase2_ignores_phase1_error hydQueryOpts none "boom"
     { value := 7, error := none } rfl rfl⟩

end UseQuery
